import Mathlib

/-!
Shallow embedding of the image-frame resolution code of the repository
AkhileshMishra/DeeptechDifferentiator.

The embedded source files are:
* `src/python/src/lambda_handlers/get_presigned_url/handler.py`
  (the getFrame proxy: `get_image_frame`, `extract_frame_info`),
* `src/python/src/lambda_handlers/get_image_set_metadata/handler.py`
  (metadata endpoint: gzip detection, JSON-decode fallback, exception mapping),
* `src/lambda_handlers/get_presigned_url/handler.py`
  (the presigned-URL variant that derives a single S3 key).

Parsed JSON documents are modelled by `JsonVal`; Python dictionary access
(`d.get`, `.items()`, truthiness, indexing) is modelled by `pyGet`,
`pyItems`, `pyTruthy`, `pyIndex0`, each raising in an `Except String`
monad exactly where the Python operation raises.  External collaborators
(boto3 clients, gzip, json, PIL) are parameters: the AWS calls are values
of an `Except (AhiError × String)` describing which exception class the
call raised, `gzip.decompress`/`json.loads`/PIL decoding are function
parameters, since they are library code, not code of this repository.
-/

/-- Model of a parsed JSON document (the result of `json.loads`):
objects are insertion-ordered association lists, matching Python dicts. -/
inductive JsonVal where
  | null
  | bool (b : Bool)
  | num (n : Int)
  | str (s : String)
  | arr (xs : List JsonVal)
  | obj (kvs : List (String × JsonVal))

/-- Python `v.get(k, dflt)`: defined on dicts (returns the mapped value or
the default), raises `AttributeError` on any non-dict value. -/
def pyGet (v : JsonVal) (k : String) (dflt : JsonVal) : Except String JsonVal :=
  match v with
  | .obj kvs => .ok ((kvs.lookup k).getD dflt)
  | _ => .error "AttributeError"

/-- Python `v.items()`: defined on dicts, raises `AttributeError` otherwise. -/
def pyItems (v : JsonVal) : Except String (List (String × JsonVal)) :=
  match v with
  | .obj kvs => .ok kvs
  | _ => .error "AttributeError"

/-- Python truthiness of a JSON-derived value
(`None`/`False`/`0`/`""`/`[]`/`\x7b\x7d` are falsy). -/
def pyTruthy : JsonVal → Bool
  | .null => false
  | .bool b => b
  | .num n => n != 0
  | .str s => s != ""
  | .arr xs => !xs.isEmpty
  | .obj kvs => !kvs.isEmpty

/-- Python `v[0]`: first element of a list (IndexError when empty),
one-character string of a string, KeyError on a string-keyed dict,
TypeError on scalars. -/
def pyIndex0 (v : JsonVal) : Except String JsonVal :=
  match v with
  | .arr (x :: _) => .ok x
  | .arr [] => .error "IndexError"
  | .str s =>
    match s.data with
    | [] => .error "IndexError"
    | c :: _ => .ok (.str (String.mk [c]))
  | .obj _ => .error "KeyError"
  | _ => .error "TypeError"

/-- The dictionary returned by `extract_frame_info` (handler.py lines
199-205).  Field values are arbitrary JSON values, exactly as in the
Python dict. -/
structure FrameInfo where
  frameId : JsonVal
  width : JsonVal
  height : JsonVal
  bitsAllocated : JsonVal
  photometric : JsonVal

/-- Inner loop of `extract_frame_info` (handler.py lines 189-205): walk the
instances of one series in iteration order; on the first instance whose
`ImageFrames` is truthy, read the DICOM attributes with their defaults and
take the `ID` entry of `frames[0]` (default `None`). -/
def scanInstances : List (String × JsonVal) → Except String (Option FrameInfo)
  | [] => .ok none
  | (_, inst) :: rest => do
    let frames ← pyGet inst "ImageFrames" (.arr [])
    if pyTruthy frames then
      let dicom ← pyGet inst "DICOM" (.obj [])
      let w ← pyGet dicom "Columns" (.num 512)
      let h ← pyGet dicom "Rows" (.num 512)
      let b ← pyGet dicom "BitsAllocated" (.num 8)
      let p ← pyGet dicom "PhotometricInterpretation" (.str "MONOCHROME2")
      let f0 ← pyIndex0 frames
      let fid ← pyGet f0 "ID" .null
      pure (some { frameId := fid, width := w, height := h,
                   bitsAllocated := b, photometric := p })
    else
      scanInstances rest

/-- Outer loop of `extract_frame_info` (handler.py line 188): walk all
series in iteration order, returning the first hit of `scanInstances`. -/
def scanSeries : List (String × JsonVal) → Except String (Option FrameInfo)
  | [] => .ok none
  | (_, series) :: rest => do
    let instV ← pyGet series "Instances" (.obj [])
    let instItems ← pyItems instV
    match ← scanInstances instItems with
    | some info => pure (some info)
    | none => scanSeries rest

/-- Body of the `try` block of `extract_frame_info` (handler.py lines
186-205): any raise inside it is an `.error`. -/
def extractFrameInfoExc (metadata : JsonVal) : Except String (Option FrameInfo) := do
  let study ← pyGet metadata "Study" (.obj [])
  let seriesV ← pyGet study "Series" (.obj [])
  let seriesItems ← pyItems seriesV
  scanSeries seriesItems

/-- `extract_frame_info` (handler.py lines 184-208): the surrounding
`try/except` converts every exception to `None`; falling off the loops
also returns `None`. -/
def extract_frame_info (metadata : JsonVal) : Option FrameInfo :=
  match extractFrameInfoExc metadata with
  | .ok r => r
  | .error _ => none

/-- Leading bytes that mark a gzip-compressed blob (handler.py line 93). -/
def gzipMagic : List Nat := [0x1F, 0x8B]

/-- JPEG magic (handler.py line 128). -/
def jpegSig : List Nat := [0xFF, 0xD8]

/-- PNG magic, the bytes 89 50 4E 47 of the Python bytes literal at
handler.py line 132. -/
def pngSig : List Nat := [0x89, 0x50, 0x4E, 0x47]

/-- Two-byte JPEG 2000 codestream marker checked at offset 0
(handler.py line 136). -/
def j2kMagic : List Nat := [0xFF, 0x4F]

/-- The two bytes `jP` that handler.py line 136 looks for at offsets 4-5. -/
def jpMarker : List Nat := [0x6A, 0x50]

/-- The full 12-byte JP2 box signature (view_healthimaging.py line 83). -/
def jp2BoxSig : List Nat :=
  [0x00, 0x00, 0x00, 0x0C, 0x6A, 0x50, 0x20, 0x20, 0x0D, 0x0A, 0x87, 0x0A]

/-- Format detection of `get_image_frame` (handler.py lines 125-137):
nested conditionals setting `output_format`, which starts as `original`.
Python slice comparisons `frame_data[a:b] == sig` are `(d.drop a).take (b-a) = sig`
(a short buffer yields a short slice and the comparison is false). -/
def detectFormat (d : List Nat) : String :=
  if d.take 2 = jpegSig then "jpeg"
  else if d.take 4 = pngSig then "png"
  else if d.take 2 = j2kMagic ∨ (d.length > 5 ∧ (d.drop 4).take 2 = jpMarker) then "jp2"
  else "original"

/-- Transcoding step of `get_image_frame` (handler.py lines 125-156).
`pilDecode` models the `PIL` block of lines 141-153 (`Image.open` followed by
`save(format=PNG)`): `none` covers both an unavailable library (import
failure) and a decode failure, since both raise and line 154 catches every
exception, keeping the original bytes and the `jp2` tag. -/
def transcodeFrame (pilDecode : List Nat → Option (List Nat)) (d : List Nat) :
    List Nat × String :=
  let fmt := detectFormat d
  if fmt = "jp2" then
    match pilDecode d with
    | some png => (png, "png")
    | none => (d, "jp2")
  else (d, fmt)

/-- Which exception class an AWS HealthImaging call raised:
`resourceNotFound` and `accessDenied` are the boto3 exception classes the
handlers name; `other` is every other exception, carrying `str(e)`. -/
inductive AhiError where
  | resourceNotFound
  | accessDenied
  | other

/-- External collaborators of `get_image_frame`, one field per library call:
the two AHI calls, `gzip.decompress`, `json.loads` and the PIL decode.
`getFrame` takes the frame id extracted from the metadata (a JSON value,
possibly `null`), leaving the behaviour of the AWS SDK on such input to
the oracle. -/
structure Collaborators where
  getMetadata : Except (AhiError × String) (List Nat)
  decompress : List Nat → Except String (List Nat)
  jsonLoads : List Nat → Except String JsonVal
  getFrame : JsonVal → Except (AhiError × String) (List Nat)
  pilDecode : List Nat → Option (List Nat)

/-- Metadata blob processing of `get_image_frame` (handler.py lines 90-96):
decompress when the blob starts with the gzip magic, then `json.loads`;
any raise propagates (there is no local handler around these lines). -/
def loadMetadataBlob (decompress : List Nat → Except String (List Nat))
    (jsonLoads : List Nat → Except String JsonVal) (blob : List Nat) :
    Except String JsonVal := do
  let b ← if blob.take 2 = gzipMagic then decompress blob else pure blob
  jsonLoads b

/-- Success payload of `get_image_frame` (handler.py lines 162-174), field
for field in source order.  `data` holds the bytes that line 173 base64
encodes (the encoding itself is a bijective serialization step and is not
modelled). -/
structure FramePayload where
  source : String
  imageSetId : String
  frameId : JsonVal
  frameSize : Nat
  outputSize : Nat
  width : JsonVal
  height : JsonVal
  format : String
  bitsAllocated : JsonVal
  photometric : JsonVal
  data : List Nat

/-- Body of a getFrame HTTP response: the `error` JSON of `error_response`
or the frame payload. -/
inductive GetFrameBody where
  | error (message : String)
  | frame (p : FramePayload)

/-- HTTP response of the getFrame handler (status code plus JSON body;
the constant CORS headers are not modelled). -/
structure HttpResponse where
  statusCode : Nat
  body : GetFrameBody

/-- `error_response` of handler.py lines 221-227. -/
def errorResponse (statusCode : Nat) (message : String) : HttpResponse :=
  { statusCode := statusCode, body := .error message }

/-- `get_image_frame` (handler.py lines 78-181).  The `try` block spans the
whole body; `except ResourceNotFoundException` maps to 404
`Image set not found`, every other exception (including
`AccessDeniedException`) reaches the generic `except Exception` and maps
to 500 `Failed to get frame`.  The reads of lines 104-108 re-apply the
same defaults through `frame_info.get`, but every key is always present in
the dict built by `extract_frame_info`, so they are the identity here. -/
def get_image_frame (c : Collaborators) (imageSetId : String) : HttpResponse :=
  match c.getMetadata with
  | .error (.resourceNotFound, _) =>
    errorResponse 404 ("Image set not found: " ++ imageSetId)
  | .error (_, msg) => errorResponse 500 ("Failed to get frame: " ++ msg)
  | .ok blob =>
    match loadMetadataBlob c.decompress c.jsonLoads blob with
    | .error msg => errorResponse 500 ("Failed to get frame: " ++ msg)
    | .ok metadata =>
      match extract_frame_info metadata with
      | none => errorResponse 404 "No frames found in image set"
      | some info =>
        match c.getFrame info.frameId with
        | .error (.resourceNotFound, _) =>
          errorResponse 404 ("Image set not found: " ++ imageSetId)
        | .error (_, msg) => errorResponse 500 ("Failed to get frame: " ++ msg)
        | .ok frameData =>
          let od := transcodeFrame c.pilDecode frameData
          { statusCode := 200,
            body := .frame {
              source := "healthimaging",
              imageSetId := imageSetId,
              frameId := info.frameId,
              frameSize := frameData.length,
              outputSize := od.1.length,
              width := info.width,
              height := info.height,
              format := od.2,
              bitsAllocated := info.bitsAllocated,
              photometric := info.photometric,
              data := od.1 } }

/-- Truthiness of an optional Python string: `None` and the empty string
are falsy. -/
def pyStrTruthy : Option String → Bool
  | none => false
  | some s => s != ""

/-- The S3 key the presigned-URL handler derives
(src/lambda_handlers/get_presigned_url/handler.py line 47). -/
def presign_file_key (imageSetId : String) : String :=
  "input/" ++ imageSetId ++ ".dcm"

/-- Every object-store key the presigned-URL handler references for a given
identifier: exactly the one key of line 47; the handler issues no
existence check for it. -/
def presign_candidate_keys (imageSetId : String) : List String :=
  [presign_file_key imageSetId]

/-- Body of a presigned-URL response (line 61 on success). -/
inductive PresignBody where
  | error (message : String)
  | url (u : String)

/-- The HTTP response of the presigned-URL handler. -/
structure PresignResponse where
  statusCode : Nat
  body : PresignBody

/-- The `lambda_handler` of src/lambda_handlers/get_presigned_url/handler.py
(lines 8-69).  `gen` models `generate_presigned_url` applied to the fixed
bucket, a pure local signing computation.  Missing or empty `imageSetId`
or `DATASTORE_ID` yield the 400 of line 22. -/
def presign_lambda_handler (gen : String → String)
    (imageSetId datastoreId : Option String) : PresignResponse :=
  if pyStrTruthy imageSetId && pyStrTruthy datastoreId then
    match imageSetId with
    | some s => { statusCode := 200, body := .url (gen (presign_file_key s)) }
    | none => { statusCode := 400, body := .error "Missing imageSetId or DATASTORE_ID" }
  else
    { statusCode := 400, body := .error "Missing imageSetId or DATASTORE_ID" }

/-- Modelled from the spec (section 4.2 ObjectKeyProbe), for comparison
with the code: candidate keys from prefixes `input/`, `upload/` crossed
with extensions `.dcm`, `.DCM`, prefix outer loop, extension inner loop. -/
def specCandidateKeys (s : String) : List String :=
  ["input/" ++ s ++ ".dcm", "input/" ++ s ++ ".DCM",
   "upload/" ++ s ++ ".dcm", "upload/" ++ s ++ ".DCM"]

/-- Modelled from the spec (section 4.2): probe the candidates in order,
returning the first existing key. -/
def specProbe (keyExists : String → Bool) (s : String) : Option String :=
  (specCandidateKeys s).find? keyExists

/-- External collaborators of the get_image_set_metadata handler.  The
fields of the `get_image_set` response other than its exceptions are not
read by any verified property, so its success value is `Unit`.
`getMetadata` returns the optional `imageSetMetadataBlob` (line 64 checks
for its absence). -/
structure GismCollab where
  getImageSet : Except (AhiError × String) Unit
  getMetadata : Except (AhiError × String) (Option (List Nat))
  decompress : List Nat → Except String (List Nat)
  jsonLoads : List Nat → Except String JsonVal
  decodeIgnore : List Nat → String

/-- Response body of the get_image_set_metadata handler.  Of the success
dict of lines 86-103 the modelled fields are `imageSetId` and
`dicomMetadata`; the remaining fields (version, state, study summary,
content type) are echoes of the collaborator response or derived views no
verified property mentions. -/
inductive GismBody where
  | error (message : String)
  | ok (imageSetId : String) (dicomMetadata : JsonVal)

/-- The HTTP response of the get_image_set_metadata handler. -/
structure GismResponse where
  statusCode : Nat
  body : GismBody

/-- Metadata blob processing of the get_image_set_metadata handler
(get_image_set_metadata/handler.py lines 66-79): decompress when gzipped;
`json.loads` failures are caught locally (lines 76-79) and replaced by a
dict holding the first 1000 characters of the errors-ignored decoding of
the (decompressed) content under the key `raw`; a decompression failure
has no local handler and propagates. -/
def gism_parse_blob (decompress : List Nat → Except String (List Nat))
    (jsonLoads : List Nat → Except String JsonVal)
    (decodeIgnore : List Nat → String) (content : List Nat) :
    Except String JsonVal := do
  let c ← if content.take 2 = gzipMagic then decompress content else pure content
  match jsonLoads c with
  | .ok v => pure v
  | .error _ => pure (.obj [("raw", .str ((decodeIgnore c).take 1000))])

/-- The `lambda_handler` of get_image_set_metadata/handler.py (lines
21-119): datastore and imageSetId validation, the two AHI calls with
`ResourceNotFoundException` mapping to 404, `AccessDeniedException` to 403
(lines 111-113) and anything else to 500, then blob processing and the
success response. -/
def gism_lambda_handler (g : GismCollab) (imageSetId datastoreId : Option String) :
    GismResponse :=
  if pyStrTruthy datastoreId = false then
    { statusCode := 500, body := .error "DATASTORE_ID not configured" }
  else
    match imageSetId with
    | none => { statusCode := 400, body := .error "imageSetId is required" }
    | some s =>
      if s = "" then { statusCode := 400, body := .error "imageSetId is required" }
      else
        match g.getImageSet with
        | .error (.resourceNotFound, _) =>
          { statusCode := 404, body := .error ("Image set not found: " ++ s) }
        | .error (.accessDenied, _) =>
          { statusCode := 403, body := .error "Access denied to image set" }
        | .error (.other, msg) =>
          { statusCode := 500, body := .error ("Error getting metadata: " ++ msg) }
        | .ok _ =>
          match g.getMetadata with
          | .error (.resourceNotFound, _) =>
            { statusCode := 404, body := .error ("Image set not found: " ++ s) }
          | .error (.accessDenied, _) =>
            { statusCode := 403, body := .error "Access denied to image set" }
          | .error (.other, msg) =>
            { statusCode := 500, body := .error ("Error getting metadata: " ++ msg) }
          | .ok none => { statusCode := 200, body := .ok s (.obj []) }
          | .ok (some content) =>
            match gism_parse_blob g.decompress g.jsonLoads g.decodeIgnore content with
            | .error msg =>
              { statusCode := 500, body := .error ("Error getting metadata: " ++ msg) }
            | .ok dm => { statusCode := 200, body := .ok s dm }

/-- View of the `extract_frame_info` traversal as a search for the chosen
instance, stated following the spec wording (walk the instances in
iteration order, stop at the first one whose `ImageFrames` is truthy),
for comparison with `scanInstances`. -/
def firstFrameInst : List (String × JsonVal) → Except String (Option JsonVal)
  | [] => .ok none
  | (_, inst) :: rest => do
    let frames ← pyGet inst "ImageFrames" (.arr [])
    if pyTruthy frames then pure (some inst) else firstFrameInst rest

/-- Walk of the series in iteration order, returning the first chosen
instance found by `firstFrameInst`. -/
def chosenInSeries : List (String × JsonVal) → Except String (Option JsonVal)
  | [] => .ok none
  | (_, series) :: rest => do
    let instV ← pyGet series "Instances" (.obj [])
    let instItems ← pyItems instV
    match ← firstFrameInst instItems with
    | some inst => pure (some inst)
    | none => chosenInSeries rest

/-- The instance of `metadata` that owns the chosen frame: the first
instance, over all series in iteration order, whose `ImageFrames` is
truthy (non-empty). -/
def chosenInstanceOf (metadata : JsonVal) : Except String (Option JsonVal) := do
  let study ← pyGet metadata "Study" (.obj [])
  let seriesV ← pyGet study "Series" (.obj [])
  let seriesItems ← pyItems seriesV
  chosenInSeries seriesItems

/-- The reads `extract_frame_info` performs on the chosen instance: the
DICOM attributes with their defaults and the `ID` entry of the first
frame (default `None`, never skipped for a missing `ID`). -/
def buildInfo (inst : JsonVal) : Except String FrameInfo := do
  let frames ← pyGet inst "ImageFrames" (.arr [])
  let dicom ← pyGet inst "DICOM" (.obj [])
  let w ← pyGet dicom "Columns" (.num 512)
  let h ← pyGet dicom "Rows" (.num 512)
  let b ← pyGet dicom "BitsAllocated" (.num 8)
  let p ← pyGet dicom "PhotometricInterpretation" (.str "MONOCHROME2")
  let f0 ← pyIndex0 frames
  let fid ← pyGet f0 "ID" .null
  pure { frameId := fid, width := w, height := h, bitsAllocated := b, photometric := p }

/-- Builder for one-series, one-instance metadata documents. -/
def mkDoc (inst : JsonVal) : JsonVal :=
  .obj [("Study", .obj [("Series", .obj [("s1",
    .obj [("Instances", .obj [("i1", inst)])])])])]

/-- Fixture: a metadata document whose Study has no Series entry. -/
def docNoSeries : JsonVal := .obj [("Study", .obj [])]

/-- Fixture: the first frame of the chosen instance has no `ID`, while
the second frame has the non-empty `ID` value `f2`. -/
def docNoIdFrame : JsonVal :=
  mkDoc (.obj [("ImageFrames", .arr [.obj [], .obj [("ID", .str "f2")]])])

/-- Fixture: one frame with id `f1`, Rows and Columns 256, no
BitsAllocated and no PhotometricInterpretation. -/
def instOneFrame : JsonVal :=
  .obj [("ImageFrames", .arr [.obj [("ID", .str "f1")]]),
        ("DICOM", .obj [("Rows", .num 256), ("Columns", .num 256)])]

/-- Fixture document wrapping `instOneFrame`. -/
def docOneFrame : JsonVal := mkDoc instOneFrame

/-- The frame info `extract_frame_info` yields on `docOneFrame`. -/
def infoOneFrame : FrameInfo :=
  { frameId := .str "f1", width := .num 256, height := .num 256,
    bitsAllocated := .num 8, photometric := .str "MONOCHROME2" }

/-- Fixture: an instance with a frame but no DICOM attributes at all. -/
def instDefaults : JsonVal :=
  .obj [("ImageFrames", .arr [.obj [("ID", .str "f1")]])]

/-- Fixture document wrapping `instDefaults`. -/
def docDefaults : JsonVal := mkDoc instDefaults

/-- Fixture collaborators: metadata store succeeds with `docNoSeries`. -/
def cNoFrames : Collaborators :=
  { getMetadata := .ok [0x7B], decompress := fun _ => .error "EOFError",
    jsonLoads := fun _ => .ok docNoSeries,
    getFrame := fun _ => .error (.other, "unreached"),
    pilDecode := fun _ => none }

/-- Fixture collaborators: the metadata call raises AccessDeniedException. -/
def cAccessDenied : Collaborators :=
  { getMetadata := .error (.accessDenied, "AccessDenied"),
    decompress := fun _ => .error "EOFError",
    jsonLoads := fun _ => .error "unreached",
    getFrame := fun _ => .error (.other, "unreached"),
    pilDecode := fun _ => none }

/-- Fixture collaborators: the metadata blob is not valid JSON. -/
def cBadJson : Collaborators :=
  { getMetadata := .ok [0x7B], decompress := fun _ => .error "EOFError",
    jsonLoads := fun _ => .error "Expecting value",
    getFrame := fun _ => .error (.other, "unreached"),
    pilDecode := fun _ => none }

/-- Fixture collaborators: frame bytes carry the JP2 box signature and the
PIL decode fails (library unavailable). -/
def cJp2NoPil : Collaborators :=
  { getMetadata := .ok [0x7B], decompress := fun _ => .error "EOFError",
    jsonLoads := fun _ => .ok docOneFrame,
    getFrame := fun _ => .ok jp2BoxSig,
    pilDecode := fun _ => none }

/-- Fixture collaborators: the parsed metadata is a bare number, so every
dict access in the traversal raises. -/
def cWrongShape : Collaborators :=
  { getMetadata := .ok [0x7B], decompress := fun _ => .error "EOFError",
    jsonLoads := fun _ => .ok (.num 5),
    getFrame := fun _ => .error (.other, "unreached"),
    pilDecode := fun _ => none }

/-- Fixture metadata-endpoint collaborators: get_image_set raises
AccessDeniedException. -/
def gAccessDenied : GismCollab :=
  { getImageSet := .error (.accessDenied, "AccessDenied"),
    getMetadata := .error (.other, "unreached"),
    decompress := fun _ => .error "EOFError",
    jsonLoads := fun _ => .error "unreached",
    decodeIgnore := fun _ => "" }

/-- Fixture metadata-endpoint collaborators: blob present, not valid JSON. -/
def gBadJson : GismCollab :=
  { getImageSet := .ok (), getMetadata := .ok (some [0x7B]),
    decompress := fun _ => .error "EOFError",
    jsonLoads := fun _ => .error "Expecting value",
    decodeIgnore := fun _ => "not json" }

/-- Fixture decompressor recognising one concrete compressed blob. -/
def gzDec : List Nat → Except String (List Nat) :=
  fun b => if b = [0x1F, 0x8B, 0x08] then .ok [0x7B] else .error "bad gzip"

/-- Fixture JSON parser returning a constant document. -/
def jlConst : List Nat → Except String JsonVal := fun _ => .ok .null

/-- Fixture errors-ignored byte decoder. -/
def diConst : List Nat → String := fun _ => ""

/-- A buffer matching none of the four documented signatures but carrying
`jP` at offsets 4-5. -/
def oddJpBuffer : List Nat := [0x00, 0x00, 0x00, 0x00, 0x6A, 0x50]

@[simp] theorem except_ok_bind {α β : Type} (a : α) (f : α → Except String β) :
    (Except.ok a : Except String α) >>= f = f a := rfl

@[simp] theorem except_error_bind {α β : Type} (e : String) (f : α → Except String β) :
    (Except.error e : Except String α) >>= f = Except.error e := rfl

@[simp] theorem except_pure_eq_ok {α : Type} (a : α) :
    (pure a : Except String α) = Except.ok a := rfl

@[simp] theorem except_pure_bind {α β : Type} (a : α) (f : α → Except String β) :
    (pure a : Except String α) >>= f = f a := rfl

theorem except_bind_assoc {α β γ : Type} (x : Except String α)
    (f : α → Except String β) (g : β → Except String γ) :
    x >>= f >>= g = x >>= fun a => f a >>= g := by
  cases x <;> rfl

theorem except_bind_congr {α β : Type} (x : Except String α)
    {f g : α → Except String β} (h : ∀ a, f a = g a) :
    x >>= f = x >>= g := by
  cases x with
  | error e => rfl
  | ok a => exact h a

/-- The inner loop of `extract_frame_info` factors through the chosen
instance: find the first instance with a truthy frame list, then read its
attributes. -/
theorem scanInstances_eq (l : List (String × JsonVal)) :
    scanInstances l = firstFrameInst l >>= fun r =>
      match r with
      | none => pure none
      | some inst => buildInfo inst >>= fun i => pure (some i) := by
  induction l with
  | nil => rfl
  | cons kv rest ih =>
    obtain ⟨k, inst⟩ := kv
    cases hf : pyGet inst "ImageFrames" (.arr []) with
    | error e =>
      simp only [scanInstances, firstFrameInst, hf, except_error_bind]
    | ok frames =>
      by_cases ht : pyTruthy frames
      · simp only [scanInstances, firstFrameInst, hf, except_ok_bind, ht, if_true,
          except_pure_bind, buildInfo, except_bind_assoc]
      · simp only [scanInstances, firstFrameInst, hf, except_ok_bind, ht, if_false]
        exact ih

/-- The outer loop of `extract_frame_info` factors the same way through
the chosen instance over all series. -/
theorem scanSeries_eq (l : List (String × JsonVal)) :
    scanSeries l = chosenInSeries l >>= fun r =>
      match r with
      | none => pure none
      | some inst => buildInfo inst >>= fun i => pure (some i) := by
  induction l with
  | nil => rfl
  | cons kv rest ih =>
    obtain ⟨k, series⟩ := kv
    cases h1 : pyGet series "Instances" (.obj []) with
    | error e => simp only [scanSeries, chosenInSeries, h1, except_error_bind]
    | ok instV =>
      cases h2 : pyItems instV with
      | error e =>
        simp only [scanSeries, chosenInSeries, h1, h2, except_ok_bind, except_error_bind]
      | ok items =>
        simp only [scanSeries, chosenInSeries, h1, h2, except_ok_bind]
        rw [scanInstances_eq]
        cases h3 : firstFrameInst items with
        | error e => simp only [h3, except_error_bind]
        | ok r =>
          cases r with
          | none =>
            simp only [h3, except_ok_bind, except_pure_bind]
            exact ih
          | some inst =>
            simp only [h3, except_ok_bind, except_pure_bind, except_bind_assoc]

/-- The whole `extract_frame_info` traversal factors through
`chosenInstanceOf` followed by `buildInfo`. -/
theorem extractExc_eq (m : JsonVal) :
    extractFrameInfoExc m = chosenInstanceOf m >>= fun r =>
      match r with
      | none => pure none
      | some inst => buildInfo inst >>= fun i => pure (some i) := by
  simp only [extractFrameInfoExc, chosenInstanceOf]
  cases h1 : pyGet m "Study" (.obj []) with
  | error e => simp only [h1, except_error_bind]
  | ok study =>
    cases h2 : pyGet study "Series" (.obj []) with
    | error e => simp only [h1, h2, except_ok_bind, except_error_bind]
    | ok seriesV =>
      cases h3 : pyItems seriesV with
      | error e => simp only [h1, h2, h3, except_ok_bind, except_error_bind]
      | ok items =>
        simp only [h1, h2, h3, except_ok_bind]
        exact scanSeries_eq items

/-- Characterization of a successful extraction: the returned info is
exactly `buildInfo` of the chosen instance. -/
theorem extract_some_iff (m : JsonVal) (i : FrameInfo) :
    extract_frame_info m = some i ↔
      ∃ inst, chosenInstanceOf m = .ok (some inst) ∧ buildInfo inst = .ok i := by
  rw [extract_frame_info, extractExc_eq]
  cases hc : chosenInstanceOf m with
  | error e => simp
  | ok r =>
    cases r with
    | none => simp
    | some inst =>
      cases hb : buildInfo inst with
      | error e => simp [hb]
      | ok j => simp [hb]

/-- C3 counterexample: the buffer 00 00 00 00 6A 50 matches none of the
four documented signatures (JPEG, PNG, JP2 codestream FF 4F FF 51, 12-byte
JP2 box), yet the code classifies it `jp2`, not Unknown: the code keys on
`jP` at offsets 4-5 of any buffer longer than 5 bytes. -/
theorem C3_counterexample :
    detectFormat oddJpBuffer = "jp2" ∧
    oddJpBuffer.take 2 ≠ jpegSig ∧
    oddJpBuffer.take 4 ≠ pngSig ∧
    oddJpBuffer.take 4 ≠ [0xFF, 0x4F, 0xFF, 0x51] ∧
    oddJpBuffer.take 12 ≠ jp2BoxSig := by
  decide

/-- C3 amended: the sniffer is total and deterministic; buffers starting
FF D8 are jpeg, buffers starting 89 50 4E 47 are png, buffers starting
FF 4F FF 51 and buffers starting with the 12-byte JP2 box signature are
jp2 (codestream and box are not distinguished), and a buffer is tagged
`original` (unknown) exactly when it starts with neither FF D8, nor
89 50 4E 47, nor FF 4F, nor has 6A 50 at offsets 4-5 with length over 5;
the checks apply in that priority order. -/
theorem C3_amended (d : List Nat) :
    (d.take 2 = jpegSig → detectFormat d = "jpeg") ∧
    (d.take 4 = pngSig → detectFormat d = "png") ∧
    (d.take 4 = [0xFF, 0x4F, 0xFF, 0x51] → detectFormat d = "jp2") ∧
    (d.take 12 = jp2BoxSig → detectFormat d = "jp2") ∧
    (d.take 2 ≠ jpegSig → d.take 4 ≠ pngSig → d.take 2 ≠ j2kMagic →
      ¬(d.length > 5 ∧ (d.drop 4).take 2 = jpMarker) →
      detectFormat d = "original") := by
  refine ⟨fun h => ?_, fun h => ?_, fun h => ?_, fun h => ?_,
    fun h1 h2 h3 h4 => ?_⟩
  · simp [detectFormat, h]
  · have h2 : d.take 2 = [0x89, 0x50] := by
      have := congrArg (List.take 2) h
      simpa [List.take_take, pngSig] using this
    simp [detectFormat, h, h2, jpegSig, pngSig]
  · have h2 : d.take 2 = [0xFF, 0x4F] := by
      have := congrArg (List.take 2) h
      simpa [List.take_take] using this
    simp [detectFormat, h2, jpegSig, pngSig, j2kMagic, h]
  · have h2 : d.take 2 = [0x00, 0x00] := by
      have := congrArg (List.take 2) h
      simpa [List.take_take, jp2BoxSig] using this
    have h4 : d.take 4 = [0x00, 0x00, 0x00, 0x0C] := by
      have := congrArg (List.take 4) h
      simpa [List.take_take, jp2BoxSig] using this
    have hlen : d.length > 5 := by
      have := congrArg List.length h
      simp [List.length_take, jp2BoxSig] at this
      omega
    have hjp : (d.drop 4).take 2 = jpMarker := by
      have := congrArg (fun l => (l.drop 4).take 2) h
      simpa [List.drop_take, List.take_take, jp2BoxSig, jpMarker] using this
    simp [detectFormat, h2, h4, jpegSig, pngSig, j2kMagic, hlen, hjp]
  · simp [detectFormat, h1, h2, h3, h4]

/-- C3 amended witness at the JP2 box signature itself. -/
theorem C3_amended_witness :
    jp2BoxSig.take 12 = jp2BoxSig ∧ detectFormat jp2BoxSig = "jp2" :=
  ⟨by decide, (C3_amended jp2BoxSig).2.2.2.1 (by decide)⟩

/-- C2 counterexample: for identifier `abc` the code derives exactly the
single key `input/abc.dcm`, not the four-candidate enumeration the claim
describes. -/
theorem C2_counterexample :
    presign_candidate_keys "abc" = ["input/abc.dcm"] ∧
    specCandidateKeys "abc" =
      ["input/abc.dcm", "input/abc.DCM", "upload/abc.dcm", "upload/abc.DCM"] ∧
    presign_candidate_keys "abc" ≠ specCandidateKeys "abc" := by
  refine ⟨rfl, rfl, ?_⟩
  decide

/-- C2 amended: for every non-empty identifier (with a configured
datastore) the handler derives exactly one candidate key
`input/` ++ id ++ `.dcm`, issues no existence check, and returns a 200
response with a presigned URL for that single key. -/
theorem C2_amended (gen : String → String) (s : String) (ds : Option String)
    (hs : s ≠ "") (hds : pyStrTruthy ds = true) :
    presign_lambda_handler gen (some s) ds =
      { statusCode := 200, body := .url (gen ("input/" ++ s ++ ".dcm")) } ∧
    presign_candidate_keys s = ["input/" ++ s ++ ".dcm"] := by
  constructor
  · simp only [presign_lambda_handler, presign_file_key]
    rw [hds]
    simp [pyStrTruthy, hs]
  · rfl

/-- C2 amended witness at identifier `abc`. -/
theorem C2_amended_witness :
    presign_lambda_handler (fun k => "https://bucket/" ++ k) (some "abc") (some "ds") =
      { statusCode := 200, body := .url "https://bucket/input/abc.dcm" } ∧
    presign_candidate_keys "abc" = ["input/abc.dcm"] :=
  C2_amended (fun k => "https://bucket/" ++ k) "abc" (some "ds")
    (by decide) (by decide)

/-- C9: parsing a gzip-compressed blob (detected by the leading bytes
1F 8B) equals parsing its decompressed form, for both the getFrame blob
loader and the metadata-endpoint blob parser: decompression happens before
any further processing. -/
theorem C9_gzip_roundtrip (dec : List Nat → Except String (List Nat))
    (jl : List Nat → Except String JsonVal) (di : List Nat → String)
    (gz d : List Nat) (h1 : gz.take 2 = gzipMagic) (h2 : dec gz = .ok d)
    (h3 : d.take 2 ≠ gzipMagic) :
    loadMetadataBlob dec jl gz = loadMetadataBlob dec jl d ∧
    gism_parse_blob dec jl di gz = gism_parse_blob dec jl di d := by
  constructor
  · simp [loadMetadataBlob, h1, h2, h3]
  · simp [gism_parse_blob, h1, h2, h3]

/-- C9 witness: a concrete compressed blob and its decompressed form. -/
theorem C9_gzip_roundtrip_witness :
    loadMetadataBlob gzDec jlConst [0x1F, 0x8B, 0x08] =
      loadMetadataBlob gzDec jlConst [0x7B] ∧
    gism_parse_blob gzDec jlConst diConst [0x1F, 0x8B, 0x08] =
      gism_parse_blob gzDec jlConst diConst [0x7B] :=
  C9_gzip_roundtrip gzDec jlConst diConst [0x1F, 0x8B, 0x08] [0x7B]
    (by decide) rfl (by decide)

/-- C10: the frame-info extraction is total: every exception of the
traversal is caught and becomes `None`, and the caller maps a `None`
extraction to the 404 `No frames found in image set` response, not a 500. -/
theorem C10_total_extract :
    (∀ (m : JsonVal) (e : String),
      extractFrameInfoExc m = .error e → extract_frame_info m = none) ∧
    (∀ (c : Collaborators) (id : String) (blob : List Nat) (metadata : JsonVal),
      c.getMetadata = .ok blob →
      loadMetadataBlob c.decompress c.jsonLoads blob = .ok metadata →
      extract_frame_info metadata = none →
      get_image_frame c id = errorResponse 404 "No frames found in image set") := by
  constructor
  · intro m e h
    simp [extract_frame_info, h]
  · intro c id blob metadata h1 h2 h3
    simp [get_image_frame, h1, h2, h3]

/-- C10 witness: a metadata document of the wrong shape (a bare number)
makes every dict access raise; the extraction returns `None` and the
response is the 404, not a 500. -/
theorem C10_total_extract_witness :
    extract_frame_info (.num 5) = none ∧
    get_image_frame cWrongShape "img1" =
      errorResponse 404 "No frames found in image set" :=
  ⟨C10_total_extract.1 (.num 5) "AttributeError" rfl,
   C10_total_extract.2 cWrongShape "img1" [0x7B] (.num 5) rfl rfl
     (C10_total_extract.1 (.num 5) "AttributeError" rfl)⟩

/-- C7 counterexample: when the metadata call raises
AccessDeniedException, the getFrame handler returns a 500 (the generic
`except Exception` branch), not the 403 the claim states. -/
theorem C7_counterexample :
    get_image_frame cAccessDenied "img1" =
      errorResponse 500 "Failed to get frame: AccessDenied" ∧
    (get_image_frame cAccessDenied "img1").statusCode ≠ 403 :=
  ⟨rfl, by decide⟩

/-- C7 amended: AccessDenied during the getFrame metadata lookup is
surfaced as a 500 generic failure (no object-store fallback exists to be
attempted); the separate get_image_set_metadata endpoint is the one that
maps AccessDenied to 403. -/
theorem C7_amended :
    (∀ (c : Collaborators) (id m : String),
      c.getMetadata = .error (.accessDenied, m) →
      get_image_frame c id = errorResponse 500 ("Failed to get frame: " ++ m)) ∧
    (∀ (g : GismCollab) (s ds m : String), s ≠ "" → ds ≠ "" →
      g.getImageSet = .error (.accessDenied, m) →
      gism_lambda_handler g (some s) (some ds) =
        { statusCode := 403, body := .error "Access denied to image set" }) := by
  constructor
  · intro c id m h
    simp [get_image_frame, h]
  · intro g s ds m hs hds h
    simp [gism_lambda_handler, pyStrTruthy, hs, hds, h]

/-- C7 amended witness at concrete collaborators. -/
theorem C7_amended_witness :
    get_image_frame cAccessDenied "img1" =
      errorResponse 500 "Failed to get frame: AccessDenied" ∧
    gism_lambda_handler gAccessDenied (some "img1") (some "ds1") =
      { statusCode := 403, body := .error "Access denied to image set" } :=
  ⟨C7_amended.1 cAccessDenied "img1" "AccessDenied" rfl,
   C7_amended.2 gAccessDenied "img1" "ds1" "AccessDenied"
     (by decide) (by decide) rfl⟩

/-- C8 counterexample: in the getFrame handler a JSON decode failure
propagates out of the parse step to the generic exception handler and is
surfaced as a 500 error response, not returned as a ParseError value
carrying a preview. -/
theorem C8_counterexample :
    get_image_frame cBadJson "img1" =
      errorResponse 500 "Failed to get frame: Expecting value" :=
  rfl

/-- C8 amended: the get_image_set_metadata handler catches JSON decode
failures and replaces the document by a dict holding the first 1000
characters of the errors-ignored decoding of the content under `raw`,
answering 200; the getFrame handler has no such local handler and
surfaces the same failure as a 500. -/
theorem C8_amended :
    (∀ (g : GismCollab) (s ds e : String) (content : List Nat),
      s ≠ "" → ds ≠ "" →
      g.getImageSet = .ok () →
      g.getMetadata = .ok (some content) →
      content.take 2 ≠ gzipMagic →
      g.jsonLoads content = .error e →
      gism_lambda_handler g (some s) (some ds) =
        { statusCode := 200,
          body := .ok s (.obj [("raw", .str ((g.decodeIgnore content).take 1000))]) }) ∧
    (∀ (c : Collaborators) (id e : String) (blob : List Nat),
      c.getMetadata = .ok blob →
      blob.take 2 ≠ gzipMagic →
      c.jsonLoads blob = .error e →
      get_image_frame c id = errorResponse 500 ("Failed to get frame: " ++ e)) := by
  constructor
  · intro g s ds e content hs hds h1 h2 h3 h4
    simp [gism_lambda_handler, pyStrTruthy, hs, hds, h1, h2, gism_parse_blob, h3, h4]
  · intro c id e blob h1 h2 h3
    simp [get_image_frame, h1, loadMetadataBlob, h2, h3]

/-- C8 amended witness at concrete collaborators. -/
theorem C8_amended_witness :
    gism_lambda_handler gBadJson (some "img1") (some "ds1") =
      { statusCode := 200,
        body := .ok "img1" (.obj [("raw", .str (("not json").take 1000))]) } ∧
    get_image_frame cBadJson "img2" =
      errorResponse 500 "Failed to get frame: Expecting value" :=
  ⟨C8_amended.1 gBadJson "img1" "ds1" "Expecting value" [0x7B]
     (by decide) (by decide) rfl rfl (by decide) rfl,
   C8_amended.2 cBadJson "img2" "Expecting value" [0x7B] rfl (by decide) rfl⟩

/-- C1 counterexample: a metadata document with no series makes the
getFrame handler answer the 404 error `No frames found in image set`
directly; no object-store probe exists and no fallback is attempted. -/
theorem C1_counterexample :
    get_image_frame cNoFrames "xyz" =
      errorResponse 404 "No frames found in image set" :=
  rfl

/-- C1 amended: when the parsed metadata holds no frame the handler
returns the 404 `No frames found in image set` immediately; when metadata
decompression or parsing fails it returns a 500; and no fallback exists:
every successful getFrame response has source `healthimaging`, never
`object-store`. -/
theorem C1_amended :
    (∀ (c : Collaborators) (id : String) (blob : List Nat) (metadata : JsonVal),
      c.getMetadata = .ok blob →
      loadMetadataBlob c.decompress c.jsonLoads blob = .ok metadata →
      extract_frame_info metadata = none →
      get_image_frame c id = errorResponse 404 "No frames found in image set") ∧
    (∀ (c : Collaborators) (id e : String) (blob : List Nat),
      c.getMetadata = .ok blob →
      loadMetadataBlob c.decompress c.jsonLoads blob = .error e →
      get_image_frame c id = errorResponse 500 ("Failed to get frame: " ++ e)) ∧
    (∀ (c : Collaborators) (id : String) (p : FramePayload),
      (get_image_frame c id).body = .frame p → p.source = "healthimaging") := by
  refine ⟨?_, ?_, ?_⟩
  · intro c id blob metadata h1 h2 h3
    simp [get_image_frame, h1, h2, h3]
  · intro c id e blob h1 h2
    simp [get_image_frame, h1, h2]
  · intro c id p h
    unfold get_image_frame at h
    cases hm : c.getMetadata with
    | error em =>
      obtain ⟨ae, msg⟩ := em
      rw [hm] at h
      cases ae <;> simp [errorResponse] at h
    | ok blob =>
      rw [hm] at h
      dsimp only at h
      cases hl : loadMetadataBlob c.decompress c.jsonLoads blob with
      | error e =>
        rw [hl] at h
        simp [errorResponse] at h
      | ok metadata =>
        rw [hl] at h
        dsimp only at h
        cases he : extract_frame_info metadata with
        | none =>
          rw [he] at h
          simp [errorResponse] at h
        | some info =>
          rw [he] at h
          dsimp only at h
          cases hf : c.getFrame info.frameId with
          | error em =>
            obtain ⟨ae, msg⟩ := em
            rw [hf] at h
            cases ae <;> simp [errorResponse] at h
          | ok fd =>
            rw [hf] at h
            simp at h
            rw [← h]

/-- C1 amended witness: concrete no-frames 404, concrete parse-failure
500, and the source tag of a concrete successful response. -/
theorem C1_amended_witness :
    get_image_frame cNoFrames "abc" =
      errorResponse 404 "No frames found in image set" ∧
    get_image_frame cBadJson "abc" =
      errorResponse 500 ("Failed to get frame: " ++ "Expecting value") ∧
    ({ source := "healthimaging", imageSetId := "img1", frameId := .str "f1",
       frameSize := 12, outputSize := 12, width := .num 256, height := .num 256,
       format := "jp2", bitsAllocated := .num 8,
       photometric := .str "MONOCHROME2",
       data := jp2BoxSig } : FramePayload).source = "healthimaging" :=
  ⟨C1_amended.1 cNoFrames "abc" [0x7B] docNoSeries rfl rfl rfl,
   C1_amended.2.1 cBadJson "abc" "Expecting value" [0x7B] rfl rfl,
   C1_amended.2.2 cJp2NoPil "img1" _ rfl⟩

/-- C4: frames sniffed as JP2 are transcoded to PNG when the decoder
succeeds and returned untouched with the `jp2` tag when the decoder is
unavailable or fails; JPEG and PNG frames pass through unchanged; in all
cases the request succeeds with status 200, never a 500. -/
theorem C4_transcode (c : Collaborators) (id : String) (blob : List Nat)
    (metadata : JsonVal) (info : FrameInfo) (fd : List Nat)
    (h1 : c.getMetadata = .ok blob)
    (h2 : loadMetadataBlob c.decompress c.jsonLoads blob = .ok metadata)
    (h3 : extract_frame_info metadata = some info)
    (h4 : c.getFrame info.frameId = .ok fd) :
    ∃ p, (get_image_frame c id).statusCode = 200 ∧
      (get_image_frame c id).body = .frame p ∧
      (detectFormat fd = "jp2" → c.pilDecode fd = none →
        p.format = "jp2" ∧ p.data = fd) ∧
      (∀ png, detectFormat fd = "jp2" → c.pilDecode fd = some png →
        p.format = "png" ∧ p.data = png) ∧
      (detectFormat fd = "jpeg" → p.format = "jpeg" ∧ p.data = fd) ∧
      (detectFormat fd = "png" → p.format = "png" ∧ p.data = fd) := by
  refine ⟨{ source := "healthimaging", imageSetId := id, frameId := info.frameId,
            frameSize := fd.length,
            outputSize := (transcodeFrame c.pilDecode fd).1.length,
            width := info.width, height := info.height,
            format := (transcodeFrame c.pilDecode fd).2,
            bitsAllocated := info.bitsAllocated, photometric := info.photometric,
            data := (transcodeFrame c.pilDecode fd).1 }, ?_, ?_, ?_, ?_, ?_, ?_⟩
  · simp [get_image_frame, h1, h2, h3, h4]
  · simp [get_image_frame, h1, h2, h3, h4]
  · intro hfmt hpil
    simp [get_image_frame, h1, h2, h3, h4, transcodeFrame, hfmt, hpil]
  · intro png hfmt hpil
    simp [get_image_frame, h1, h2, h3, h4, transcodeFrame, hfmt, hpil]
  · intro hfmt
    simp [get_image_frame, h1, h2, h3, h4, transcodeFrame, hfmt]
  · intro hfmt
    simp [get_image_frame, h1, h2, h3, h4, transcodeFrame, hfmt]

/-- C4 witness: JP2-box-signature frame bytes with an unavailable decoder
yield a 200 response tagged `jp2` whose data is the untouched bytes. -/
theorem C4_transcode_witness :
    ∃ p, (get_image_frame cJp2NoPil "img1").statusCode = 200 ∧
      (get_image_frame cJp2NoPil "img1").body = .frame p ∧
      p.format = "jp2" ∧ p.data = jp2BoxSig := by
  obtain ⟨p, hs, hb, hjp2, _, _, _⟩ :=
    C4_transcode cJp2NoPil "img1" [0x7B] docOneFrame infoOneFrame jp2BoxSig
      rfl rfl rfl rfl
  obtain ⟨hf, hd⟩ := hjp2 rfl rfl
  exact ⟨p, hs, hb, hf, hd⟩

/-- C5 counterexample: the first frame of the chosen instance has no
`ID`, but the code does not skip it in favour of the later frame whose
`ID` is the non-empty `f2`: the extracted frameId is `null`. -/
theorem C5_counterexample :
    extract_frame_info docNoIdFrame =
      some { frameId := JsonVal.null, width := .num 512, height := .num 512,
             bitsAllocated := .num 8, photometric := .str "MONOCHROME2" } ∧
    JsonVal.null ≠ JsonVal.str "f2" :=
  ⟨rfl, fun h => by cases h⟩

/-- C5 amended: the extraction succeeds with `info` exactly when the walk
over all series (in iteration order) and their instances finds a first
instance whose `ImageFrames` is truthy, and `info` is built from that same
instance: its DICOM attributes with defaults, and the `ID` of its first
frame, taken even when absent (`null`), never skipped for a non-empty
one. -/
theorem C5_amended (metadata : JsonVal) (info : FrameInfo) :
    extract_frame_info metadata = some info ↔
      ∃ inst, chosenInstanceOf metadata = .ok (some inst) ∧
        buildInfo inst = .ok info :=
  extract_some_iff metadata info

/-- C5 amended witness: a concrete document, its chosen instance and the
extracted info. -/
theorem C5_amended_witness :
    extract_frame_info docOneFrame = some infoOneFrame :=
  (C5_amended docOneFrame infoOneFrame).mpr ⟨instOneFrame, rfl, rfl⟩

@[simp] theorem pyGet_obj (kvs : List (String × JsonVal)) (k : String)
    (dflt : JsonVal) :
    pyGet (.obj kvs) k dflt = .ok ((kvs.lookup k).getD dflt) := rfl

/-- C6: when the chosen instance is missing Columns, Rows, BitsAllocated
or PhotometricInterpretation in its DICOM attributes, the extracted info
uses the defaults 512, 512, 8, MONOCHROME2 for each missing attribute,
and the getFrame response copies those values into its width, height,
bitsAllocated and photometric fields. -/
theorem C6_defaults (metadata inst : JsonVal) (info : FrameInfo)
    (dkvs : List (String × JsonVal))
    (hchosen : chosenInstanceOf metadata = .ok (some inst))
    (hext : extract_frame_info metadata = some info)
    (hdicom : pyGet inst "DICOM" (.obj []) = .ok (.obj dkvs)) :
    ((dkvs.lookup "Columns" = none → info.width = .num 512) ∧
     (dkvs.lookup "Rows" = none → info.height = .num 512) ∧
     (dkvs.lookup "BitsAllocated" = none → info.bitsAllocated = .num 8) ∧
     (dkvs.lookup "PhotometricInterpretation" = none →
       info.photometric = .str "MONOCHROME2")) ∧
    (∀ (c : Collaborators) (id : String) (blob fd : List Nat),
      c.getMetadata = .ok blob →
      loadMetadataBlob c.decompress c.jsonLoads blob = .ok metadata →
      c.getFrame info.frameId = .ok fd →
      ∃ p, (get_image_frame c id).body = .frame p ∧
        p.width = info.width ∧ p.height = info.height ∧
        p.bitsAllocated = info.bitsAllocated ∧
        p.photometric = info.photometric) := by
  obtain ⟨inst2, hc2, hb⟩ := (extract_some_iff metadata info).mp hext
  rw [hchosen] at hc2
  have hinst : inst = inst2 := by
    injection hc2 with h
    exact Option.some.inj h
  subst hinst
  constructor
  · unfold buildInfo at hb
    cases hf : pyGet inst "ImageFrames" (.arr []) with
    | error e => rw [hf] at hb; simp at hb
    | ok frames =>
      rw [hf] at hb
      simp only [except_ok_bind] at hb
      rw [hdicom] at hb
      simp only [except_ok_bind, pyGet_obj] at hb
      cases hi : pyIndex0 frames with
      | error e => rw [hi] at hb; simp at hb
      | ok f0 =>
        rw [hi] at hb
        simp only [except_ok_bind] at hb
        cases hj : pyGet f0 "ID" .null with
        | error e => rw [hj] at hb; simp at hb
        | ok fid =>
          rw [hj] at hb
          simp only [except_ok_bind, except_pure_eq_ok, Except.ok.injEq] at hb
          subst hb
          refine ⟨fun h => ?_, fun h => ?_, fun h => ?_, fun h => ?_⟩ <;>
            simp [h]
  · intro c id blob fd g1 g2 g3
    refine ⟨{ source := "healthimaging", imageSetId := id,
              frameId := info.frameId, frameSize := fd.length,
              outputSize := (transcodeFrame c.pilDecode fd).1.length,
              width := info.width, height := info.height,
              format := (transcodeFrame c.pilDecode fd).2,
              bitsAllocated := info.bitsAllocated,
              photometric := info.photometric,
              data := (transcodeFrame c.pilDecode fd).1 },
            ?_, rfl, rfl, rfl, rfl⟩
    simp [get_image_frame, g1, g2, hext, g3]

/-- C6 witness: a document whose chosen instance has no DICOM attributes
extracts all four defaults. -/
theorem C6_defaults_witness :
    ∃ info, extract_frame_info docDefaults = some info ∧
      info.width = .num 512 ∧ info.height = .num 512 ∧
      info.bitsAllocated = .num 8 ∧ info.photometric = .str "MONOCHROME2" := by
  have h := C6_defaults docDefaults instDefaults
    { frameId := .str "f1", width := .num 512, height := .num 512,
      bitsAllocated := .num 8, photometric := .str "MONOCHROME2" } []
    rfl rfl rfl
  exact ⟨_, rfl, h.1.1 rfl, h.1.2.1 rfl, h.1.2.2.1 rfl, h.1.2.2.2 rfl⟩
